import Mathlib

/-
Verification of the RATBV bus scraper (src/index.ts) against its
natural-language specification.  The TypeScript source is shallowly
embedded: pure computations become Lean functions, the HTTP handlers
acting on the route registry become functions from the loaded registry
(a `List Route`) to a result together with the registry state that is
persisted afterwards, and the selenium driver session is modelled by an
event trace driven by an environment that decides the outcome of every
driver call.
-/

namespace BusScraper

/- ---------------------------------------------------------------
   String helpers (models of the JS string methods used in index.ts)
   --------------------------------------------------------------- -/

/-- Model of JS `String.prototype.trim`: drop whitespace from both ends. -/
def jsTrim (s : String) : String :=
  String.mk (((s.data.dropWhile Char.isWhitespace).reverse.dropWhile Char.isWhitespace).reverse)

/-- Replace every maximal run of whitespace by a single hyphen; the Bool
argument records whether we are currently inside a whitespace run
(model of `.replace` with a one-or-more whitespace pattern and a hyphen
replacement, source line 91). -/
def collapseWsAux : Bool → List Char → List Char
  | _, [] => []
  | inRun, c :: rest =>
    if c.isWhitespace then
      if inRun then collapseWsAux true rest
      else '-' :: collapseWsAux true rest
    else
      c :: collapseWsAux false rest

/-- Source line 91: `stationName.toLowerCase().replace(dot-pattern, empty).replace(ws-pattern, hyphen)`:
lowercase the name, strip periods, collapse whitespace runs to single hyphens. -/
def slugify (s : String) : String :=
  String.mk (collapseWsAux false ((s.data.map Char.toLower).filter (fun c => c != '.')))

/- ---------------------------------------------------------------
   Timetable combine loop (source lines 131-138 of scrapeBusTimes)
   --------------------------------------------------------------- -/

/-- One iteration of the `hourTexts.forEach((hour, i) => ...)` loop:
`if (minuteTextsByHour[i])` is a JS truthiness test which on an array of
arrays holds exactly when index `i` is in bounds. -/
def combineStep (minuteTextsByHour : List (List String)) (busTimes : List String)
    (hi : Nat × String) : List String :=
  match minuteTextsByHour[hi.1]? with
  | some mins => busTimes ++ mins.map (fun minute => jsTrim hi.2 ++ ":" ++ jsTrim minute)
  | none => busTimes

/-- Source lines 131-138: build `busTimes` by iterating the hours with
their index and pushing one formatted entry per minute under that hour. -/
def combineBusTimes (hourTexts : List String) (minuteTextsByHour : List (List String)) :
    List String :=
  hourTexts.enum.foldl (combineStep minuteTextsByHour) []

/-- Combination sequence as the spec words it (spec section 4.3): for each
hour in document order that has a positionally corresponding minute
wrapper, emit one trimmed `hour:minute` entry per minute in document
order; hours without a wrapper contribute nothing. -/
def combineSpec : List String → List (List String) → List String
  | [], _ => []
  | _ :: _, [] => []
  | h :: hs, ms :: mss =>
    ms.map (fun m => jsTrim h ++ ":" ++ jsTrim m) ++ combineSpec hs mss

/- ---------------------------------------------------------------
   Route identity resolver (embedded client script, lines 510-540)
   --------------------------------------------------------------- -/

/-- Model of `masterUrl.match(afisaje-slash-token-hyphen)`: scan for the first
position where the literal `afisaje/` is followed by a nonempty run of
non-hyphen characters and then a hyphen; return that run. -/
def matchAfisajeAux : List Char → Option (List Char)
  | [] => none
  | c :: rest =>
    if ("afisaje/".data).isPrefixOf (c :: rest) then
      let tail := (c :: rest).drop 8
      let tok := tail.takeWhile (fun x => x != '-')
      if tok.isEmpty then matchAfisajeAux rest
      else
        match tail.drop tok.length with
        | '-' :: _ => some tok
        | _ => matchAfisajeAux rest
    else matchAfisajeAux rest

/-- Source line 514-515: the line token extracted from the master URL, or
the empty string when the pattern does not match. -/
def extractRouteNumber (masterUrl : String) : String :=
  match matchAfisajeAux masterUrl.data with
  | some tok => String.mk tok
  | none => ""

/-- Model of `stationLink.match(line-underscore-token-underscore-capture-underscore)`:
scan for the first position where the literal `line_` is followed by a
nonempty run of non-underscore characters, an underscore, a second
nonempty run (the captured slug), and another underscore. -/
def matchLineSlugAux : List Char → Option (List Char)
  | [] => none
  | c :: rest =>
    if ("line_".data).isPrefixOf (c :: rest) then
      let t1 := (c :: rest).drop 5
      let tokA := t1.takeWhile (fun x => x != '_')
      if tokA.isEmpty then matchLineSlugAux rest
      else
        match t1.drop tokA.length with
        | '_' :: t2 =>
          let tokB := t2.takeWhile (fun x => x != '_')
          if tokB.isEmpty then matchLineSlugAux rest
          else
            match t2.drop tokB.length with
            | '_' :: _ => some tokB
            | _ => matchLineSlugAux rest
        | _ => matchLineSlugAux rest
    else matchLineSlugAux rest

/-- Source lines 521-523: the station slug parsed from the per-station
link, falling back to the human-readable slug when the pattern fails. -/
def extractStationSlug (stationLink fallbackSlug : String) : String :=
  match matchLineSlugAux stationLink.data with
  | some tok => String.mk tok
  | none => fallbackSlug

/-- Source line 532: `id = routeNumber-stationSlug-direction`. -/
def composeRouteId (masterUrl stationLink fallbackSlug direction : String) : String :=
  extractRouteNumber masterUrl ++ "-" ++ extractStationSlug stationLink fallbackSlug
    ++ "-" ++ direction

/- ---------------------------------------------------------------
   Data model and route registry handlers (src/index.ts)
   --------------------------------------------------------------- -/

/-- The `Route` interface (source lines 11-22).  `direction` is the string
union of the two direction literals; optional fields are `Option`. -/
structure Route where
  id : String
  routeNumber : String
  direction : String
  stationName : String
  stationSlug : String
  url : String
  directionFrom : Option String
  directionTo : Option String
  cachedBusTimes : Option (List String)
  cacheTimestamp : Option Int
deriving Repr, DecidableEq

/-- Source line 25: cache duration in milliseconds (5 minutes). -/
def CACHE_DURATION : Int := 5 * 60 * 1000

/-- Source lines 29-36: `loadRoutes` reads the routes file and parses it,
returning the empty list when either step fails.  A failed read (missing
or unreadable file) is `none`; `parse` abstracts `JSON.parse` together
with the unchecked cast to `Route[]`, returning `none` on a parse error. -/
def loadRoutes (readResult : Option String) (parse : String → Option (List Route)) :
    List Route :=
  match readResult with
  | none => []
  | some data =>
    match parse data with
    | some routes => routes
    | none => []

/-- POST handler on the routes collection (source lines 160-183): reject a
route whose id already exists without saving; otherwise append and save.
The second component is the registry state persisted afterwards. -/
def postRoute (routes : List Route) (newRoute : Route) : Except String Unit × List Route :=
  if routes.any (fun r => r.id == newRoute.id) then
    (Except.error "ID already exists", routes)
  else
    (Except.ok (), routes ++ [newRoute])

/-- DELETE handler (source lines 185-191): keep every route whose id
differs, save the filtered collection, and always answer success. -/
def deleteRoutes (routes : List Route) (idv : String) : Bool × List Route :=
  (true, routes.filter (fun r => r.id != idv))

/-- Source lines 203-204: set both cache fields of a route to absent. -/
def clearCache (r : Route) : Route :=
  { r with cachedBusTimes := none, cacheTimestamp := none }

/-- The in-place mutation performed by the invalidate handler: the route
found by `routes.find` (the first id match) has its cache fields cleared
inside the collection. -/
def clearFirst (idv : String) : List Route → List Route
  | [] => []
  | r :: rest =>
    if r.id == idv then clearCache r :: rest
    else r :: clearFirst idv rest

/-- Invalidate-cache handler (source lines 193-209): a missing id answers
404 without saving; otherwise the first matching route has both cache
fields cleared and the whole collection is saved. -/
def invalidateCacheOp (routes : List Route) (idv : String) : Except Unit Unit × List Route :=
  match routes.find? (fun r => r.id == idv) with
  | none => (Except.error (), routes)
  | some _ => (Except.ok (), clearFirst idv routes)

/- ---------------------------------------------------------------
   Display path (source lines 658-689)
   --------------------------------------------------------------- -/

/-- JS truthiness of the numeric `route.cacheTimestamp`: absent and the
number `0` are both falsy. -/
def tsTruthy : Option Int → Bool
  | none => false
  | some t => t != 0

/-- The cache condition of source line 676:
`route.cachedBusTimes && route.cacheTimestamp && (now - route.cacheTimestamp) < CACHE_DURATION`. -/
def cacheCheck (r : Route) (now : Int) : Bool :=
  r.cachedBusTimes.isSome && tsTruthy r.cacheTimestamp &&
    decide (now - r.cacheTimestamp.getD 0 < CACHE_DURATION)

/-- Lookup predicate of the display path (source lines 659-663): the route
whose (routeNumber, direction, stationSlug) triple matches the URL path. -/
def tripleMatches (rn dir ss : String) (r : Route) : Bool :=
  r.routeNumber == rn && r.direction == dir && r.stationSlug == ss

/-- Source lines 686-687: overwrite the route's cache snapshot with the
freshly scraped times and the current timestamp. -/
def setCache (r : Route) (times : List String) (now : Int) : Route :=
  { r with cachedBusTimes := some times, cacheTimestamp := some now }

/-- The in-place cache write of the display path: the route found by
`routes.find` (first triple match) is overwritten inside the collection. -/
def updateCacheFirst (rn dir ss : String) (times : List String) (now : Int) :
    List Route → List Route
  | [] => []
  | r :: rest =>
    if tripleMatches rn dir ss r then setCache r times now :: rest
    else r :: updateCacheFirst rn dir ss times now rest

/-- Result of the display path.  Each constructor carries the registry
state persisted when the response is produced (no save call leaves the
loaded state in place). -/
inductive FetchOutcome where
  | routeNotFound
  | cached (times : List String) (ageMillis : Int) (saved : List Route)
  | live (times : List String) (saved : List Route)
  | failure (msg : String) (saved : List Route)
deriving Repr, DecidableEq

/-- Display path for one request (source lines 658-689).  `scrapeResult`
is the outcome of the (at most one) `scrapeBusTimes` driver invocation;
the first component counts how many driver invocations were performed. -/
def fetchTimetable (routes : List Route) (rn dir ss : String) (now : Int)
    (scrapeResult : Except String (List String)) : Nat × FetchOutcome :=
  match routes.find? (tripleMatches rn dir ss) with
  | none => (0, FetchOutcome.routeNotFound)
  | some route =>
    if cacheCheck route now then
      (0, FetchOutcome.cached (route.cachedBusTimes.getD [])
            (now - route.cacheTimestamp.getD 0) routes)
    else
      match scrapeResult with
      | Except.ok times =>
          (1, FetchOutcome.live times (updateCacheFirst rn dir ss times now routes))
      | Except.error e => (1, FetchOutcome.failure e routes)

/-- Registry state persisted after a display request (identity when no
save call happened). -/
def fetchSaved (routes : List Route) (out : Nat × FetchOutcome) : List Route :=
  match out.2 with
  | FetchOutcome.routeNotFound => routes
  | FetchOutcome.cached _ _ saved => saved
  | FetchOutcome.live _ saved => saved
  | FetchOutcome.failure _ saved => saved

/-- Registry states reachable from the empty registry through the core's
mutating operations: route creation, deletion, cache invalidation, and
the display path's cache write. -/
inductive Reachable : List Route → Prop where
  | empty : Reachable []
  | create {rs : List Route} (r : Route) : Reachable rs → Reachable (postRoute rs r).2
  | delete {rs : List Route} (idv : String) : Reachable rs → Reachable (deleteRoutes rs idv).2
  | invalidate {rs : List Route} (idv : String) :
      Reachable rs → Reachable (invalidateCacheOp rs idv).2
  | display {rs : List Route} (rn dir ss : String) (now : Int)
      (scr : Except String (List String)) :
      Reachable rs → Reachable (fetchSaved rs (fetchTimetable rs rn dir ss now scr))

/- ---------------------------------------------------------------
   Driver session model (scrapeLineMetadata, scrapeBusTimes)
   --------------------------------------------------------------- -/

/-- Events of a scrape execution: the session build succeeding or
failing, an awaited driver call (with its index and outcome), and the
session close performed by `driver.quit()`. -/
inductive DEvent where
  | sessionOpen
  | sessionFail
  | call (idx : Nat) (ok : Bool)
  | sessionClose
deriving Repr, DecidableEq

/-- Execution state: index of the next driver call and the event trace
accumulated so far. -/
structure SState where
  idx : Nat
  trace : List DEvent
deriving Repr

/-- A fallible, trace-recording computation: the shape shared by every
`await driver...` step inside the try blocks. -/
def StM (α : Type) : Type := SState → Except String α × SState

/-- Return for `StM`. -/
def StM.pure {α : Type} (a : α) : StM α := fun s => (Except.ok a, s)

/-- Sequencing with early exit on error: a thrown error skips the rest of
the try block (but not the finally clause, which the wrappers below add
outside the body). -/
def StM.bind {α β : Type} (m : StM α) (f : α → StM β) : StM β := fun s =>
  match m s with
  | (Except.ok a, s1) => f a s1
  | (Except.error e, s1) => (Except.error e, s1)

/-- Environment deciding the behaviour of the external browser: whether
the session build succeeds, and for every driver call whether it
succeeds, the text it returns, and the element list it returns. -/
structure DriverEnv where
  buildOk : Bool
  callOk : Nat → Bool
  callText : Nat → String
  callList : Nat → List String

/-- One awaited driver call returning text (navigate / switchTo /
findElement / getText / getAttribute): records a call event and either
yields the environment's text or throws. -/
def driverCall (env : DriverEnv) : StM String := fun s =>
  let ok := env.callOk s.idx
  let s1 : SState := ⟨s.idx + 1, s.trace ++ [DEvent.call s.idx ok]⟩
  if ok then (Except.ok (env.callText s.idx), s1)
  else (Except.error "ScrapeFailure", s1)

/-- One awaited `findElements` driver call: like `driverCall` but yields
a list of element tokens (an empty list, never an error, when nothing
matches — the environment chooses the list). -/
def driverCallList (env : DriverEnv) : StM (List String) := fun s =>
  let ok := env.callOk s.idx
  let s1 : SState := ⟨s.idx + 1, s.trace ++ [DEvent.call s.idx ok]⟩
  if ok then (Except.ok (env.callList s.idx), s1)
  else (Except.error "ScrapeFailure", s1)

/-- A scraped station entry (source lines 44-48). -/
structure StationData where
  route : String
  name : String
  link : String
deriving Repr, DecidableEq

/-- Scraped line metadata (source lines 50-53). -/
structure LineMetadata where
  lineName : String
  stations : List StationData
deriving Repr, DecidableEq

/-- The per-station loop of `scrapeLineMetadata` (source lines 83-95):
for each element found, find its bold child, read its text, find its
anchor child, read the href, and build the station record with the
derived slug. -/
def stationsLoop (env : DriverEnv) : List String → StM (List StationData)
  | [] => StM.pure []
  | _ :: rest =>
    StM.bind (driverCall env) (fun _ =>
    StM.bind (driverCall env) (fun stationName =>
    StM.bind (driverCall env) (fun _ =>
    StM.bind (driverCall env) (fun href =>
    StM.bind (stationsLoop env rest) (fun tail =>
    StM.pure ({ route := slugify stationName, name := stationName, link := href } :: tail))))))

/-- Try-block body of `scrapeLineMetadata` (source lines 66-97): navigate,
switch into frame 2, read the line name, switch back and into frame 1,
enumerate the station elements, and loop over them. -/
def scrapeLineMetadataBody (env : DriverEnv) : StM LineMetadata :=
  StM.bind (driverCall env) (fun _ =>
  StM.bind (driverCall env) (fun _ =>
  StM.bind (driverCall env) (fun _ =>
  StM.bind (driverCall env) (fun _ =>
  StM.bind (driverCall env) (fun linie =>
  StM.bind (driverCall env) (fun _ =>
  StM.bind (driverCall env) (fun _ =>
  StM.bind (driverCallList env) (fun els =>
  StM.bind (stationsLoop env els) (fun stations =>
  StM.pure { lineName := linie, stations := stations })))))))))

/-- `getText` loop over a list of elements (the `Promise.all` of source
line 124 and the inner map of line 127, run in sequence). -/
def textsLoop (env : DriverEnv) : List String → StM (List String)
  | [] => StM.pure []
  | _ :: rest =>
    StM.bind (driverCall env) (fun t =>
    StM.bind (textsLoop env rest) (fun ts =>
    StM.pure (t :: ts)))

/-- Per-wrapper loop of source lines 125-128: find the minute elements of
each wrapper and read their texts. -/
def minutesLoop (env : DriverEnv) : List String → StM (List (List String))
  | [] => StM.pure []
  | _ :: rest =>
    StM.bind (driverCallList env) (fun mins =>
    StM.bind (textsLoop env mins) (fun texts =>
    StM.bind (minutesLoop env rest) (fun tail =>
    StM.pure (texts :: tail))))

/-- Try-block body of `scrapeBusTimes` (source lines 117-140): navigate,
find the table, enumerate hour and minute-wrapper elements, read all
texts, and combine them. -/
def scrapeBusTimesBody (env : DriverEnv) : StM (List String) :=
  StM.bind (driverCall env) (fun _ =>
  StM.bind (driverCall env) (fun _ =>
  StM.bind (driverCallList env) (fun hours =>
  StM.bind (driverCallList env) (fun wrappers =>
  StM.bind (textsLoop env hours) (fun hourTexts =>
  StM.bind (minutesLoop env wrappers) (fun minuteTextsByHour =>
  StM.pure (combineBusTimes hourTexts minuteTextsByHour)))))))

/-- `scrapeLineMetadata` (source lines 55-101): build the session (the
builder is outside the try block), run the body, and close the session
in the finally clause whether the body returned or threw. -/
def scrapeLineMetadata (env : DriverEnv) : Except String LineMetadata × List DEvent :=
  if env.buildOk then
    let out := scrapeLineMetadataBody env ⟨0, [DEvent.sessionOpen]⟩
    (out.1, out.2.trace ++ [DEvent.sessionClose])
  else
    (Except.error "SessionNotCreated", [DEvent.sessionFail])

/-- `scrapeBusTimes` (source lines 103-144): the builder runs inside the
try block with `driver` initially null; the finally clause closes the
session via `driver?.quit()`, which is a no-op when the build threw. -/
def scrapeBusTimes (env : DriverEnv) : Except String (List String) × List DEvent :=
  if env.buildOk then
    let out := scrapeBusTimesBody env ⟨0, [DEvent.sessionOpen]⟩
    (out.1, out.2.trace ++ [DEvent.sessionClose])
  else
    (Except.error "SessionNotCreated", [DEvent.sessionFail])

/-- Number of session-close events in a trace. -/
def closeCount (tr : List DEvent) : Nat :=
  tr.countP (fun e => decide (e = DEvent.sessionClose))

/-- Number of successful session-open events in a trace. -/
def openCount (tr : List DEvent) : Nat :=
  tr.countP (fun e => decide (e = DEvent.sessionOpen))

/-- A list of events that are all driver calls. -/
def OnlyCalls (l : List DEvent) : Prop := ∀ e ∈ l, ∃ i b, e = DEvent.call i b

/-- A computation only appends driver-call events to the trace. -/
def TraceExtends {α : Type} (m : StM α) : Prop :=
  ∀ s, ∃ ex, ((m s).2).trace = s.trace ++ ex ∧ OnlyCalls ex

/- ---------------------------------------------------------------
   Concrete values used in witnesses and counterexamples
   --------------------------------------------------------------- -/

/-- A stored route whose snapshot timestamp is the number 0: a value the
POST handler accepts verbatim (it copies the request body into the
registry, cache fields included). -/
def zeroTsRoute : Route :=
  { id := "23b-4-dus", routeNumber := "23b", direction := "dus",
    stationName := "Stadion", stationSlug := "4",
    url := "https://www.ratbv.ro/afisaje/23b-dus/line_23b_4_cl1_ro.html",
    directionFrom := none, directionTo := none,
    cachedBusTimes := some ["7:05"], cacheTimestamp := some 0 }

/-- A route with a fresh snapshot (timestamp 1000, read at now = 2000). -/
def freshRoute : Route :=
  { id := "23b-4-dus", routeNumber := "23b", direction := "dus",
    stationName := "Stadion", stationSlug := "4",
    url := "https://www.ratbv.ro/afisaje/23b-dus/line_23b_4_cl1_ro.html",
    directionFrom := none, directionTo := none,
    cachedBusTimes := some ["7:05", "7:20"], cacheTimestamp := some 1000 }

/-- A route with no snapshot at all. -/
def bareRoute : Route :=
  { id := "5-gara-dus", routeNumber := "5", direction := "dus",
    stationName := "Gara", stationSlug := "gara",
    url := "https://www.ratbv.ro/afisaje/5-dus/line_5_gara_cl1_ro.html",
    directionFrom := none, directionTo := none,
    cachedBusTimes := none, cacheTimestamp := none }

/-- First of two routes sharing the (routeNumber, direction, stationSlug)
triple while having distinct ids. -/
def dupTripleA : Route :=
  { id := "first-id", routeNumber := "23b", direction := "dus",
    stationName := "Stadion", stationSlug := "4",
    url := "https://www.ratbv.ro/afisaje/23b-dus/line_23b_4_cl1_ro.html",
    directionFrom := none, directionTo := none,
    cachedBusTimes := none, cacheTimestamp := none }

/-- Second of the two: same triple, different id (the POST handler only
compares ids, so it accepts this after `dupTripleA`). -/
def dupTripleB : Route :=
  { id := "second-id", routeNumber := "23b", direction := "dus",
    stationName := "Stadion", stationSlug := "4",
    url := "https://www.ratbv.ro/afisaje/23b-dus/line_23b_4_cl1_ro.html",
    directionFrom := none, directionTo := none,
    cachedBusTimes := none, cacheTimestamp := none }

/-- Driver environment in which the build and every call succeed and
return empty data. -/
def envAllOk : DriverEnv :=
  { buildOk := true, callOk := fun _ => true,
    callText := fun _ => "", callList := fun _ => [] }

/-- Driver environment whose build succeeds but whose third call (the
first frame switch has index 1) fails, aborting the try block early. -/
def envFailAt2 : DriverEnv :=
  { buildOk := true, callOk := fun i => decide (i < 2),
    callText := fun _ => "", callList := fun _ => [] }

/-- Driver environment whose session build itself fails. -/
def envNoBuild : DriverEnv :=
  { buildOk := false, callOk := fun _ => true,
    callText := fun _ => "", callList := fun _ => [] }

/- ---------------------------------------------------------------
   Helper lemmas
   --------------------------------------------------------------- -/

theorem traceExtends_pure {α : Type} (a : α) : TraceExtends (StM.pure a) := by
  intro s
  exact ⟨[], by simp [StM.pure], by intro e he; simp at he⟩

theorem traceExtends_bind {α β : Type} {m : StM α} {f : α → StM β}
    (hm : TraceExtends m) (hf : ∀ a, TraceExtends (f a)) :
    TraceExtends (StM.bind m f) := by
  intro s
  obtain ⟨ex1, h1, ho1⟩ := hm s
  rcases hprod : m s with ⟨r, s1⟩
  rw [hprod] at h1
  cases r with
  | error e =>
    refine ⟨ex1, ?_, ho1⟩
    simp only [StM.bind, hprod]
    exact h1
  | ok a =>
    obtain ⟨ex2, h2, ho2⟩ := hf a s1
    refine ⟨ex1 ++ ex2, ?_, ?_⟩
    · simp only [StM.bind, hprod]
      rw [h2, h1, List.append_assoc]
    · intro e he
      rcases List.mem_append.mp he with h | h
      · exact ho1 e h
      · exact ho2 e h

theorem traceExtends_driverCall (env : DriverEnv) : TraceExtends (driverCall env) := by
  intro s
  refine ⟨[DEvent.call s.idx (env.callOk s.idx)], ?_, ?_⟩
  · simp only [driverCall]
    split <;> rfl
  · intro e he
    simp at he
    exact ⟨s.idx, env.callOk s.idx, he⟩

theorem traceExtends_driverCallList (env : DriverEnv) :
    TraceExtends (driverCallList env) := by
  intro s
  refine ⟨[DEvent.call s.idx (env.callOk s.idx)], ?_, ?_⟩
  · simp only [driverCallList]
    split <;> rfl
  · intro e he
    simp at he
    exact ⟨s.idx, env.callOk s.idx, he⟩

theorem traceExtends_stationsLoop (env : DriverEnv) (l : List String) :
    TraceExtends (stationsLoop env l) := by
  induction l with
  | nil => exact traceExtends_pure []
  | cons x rest ih =>
    refine traceExtends_bind (traceExtends_driverCall env) (fun _ => ?_)
    refine traceExtends_bind (traceExtends_driverCall env) (fun _ => ?_)
    refine traceExtends_bind (traceExtends_driverCall env) (fun _ => ?_)
    refine traceExtends_bind (traceExtends_driverCall env) (fun _ => ?_)
    exact traceExtends_bind ih (fun tail => traceExtends_pure _)

theorem traceExtends_lineBody (env : DriverEnv) :
    TraceExtends (scrapeLineMetadataBody env) := by
  unfold scrapeLineMetadataBody
  refine traceExtends_bind (traceExtends_driverCall env) (fun _ => ?_)
  refine traceExtends_bind (traceExtends_driverCall env) (fun _ => ?_)
  refine traceExtends_bind (traceExtends_driverCall env) (fun _ => ?_)
  refine traceExtends_bind (traceExtends_driverCall env) (fun _ => ?_)
  refine traceExtends_bind (traceExtends_driverCall env) (fun _ => ?_)
  refine traceExtends_bind (traceExtends_driverCall env) (fun _ => ?_)
  refine traceExtends_bind (traceExtends_driverCall env) (fun _ => ?_)
  refine traceExtends_bind (traceExtends_driverCallList env) (fun els => ?_)
  exact traceExtends_bind (traceExtends_stationsLoop env els) (fun _ => traceExtends_pure _)

theorem traceExtends_textsLoop (env : DriverEnv) (l : List String) :
    TraceExtends (textsLoop env l) := by
  induction l with
  | nil => exact traceExtends_pure []
  | cons x rest ih =>
    refine traceExtends_bind (traceExtends_driverCall env) (fun _ => ?_)
    exact traceExtends_bind ih (fun _ => traceExtends_pure _)

theorem traceExtends_minutesLoop (env : DriverEnv) (l : List String) :
    TraceExtends (minutesLoop env l) := by
  induction l with
  | nil => exact traceExtends_pure []
  | cons x rest ih =>
    refine traceExtends_bind (traceExtends_driverCallList env) (fun mins => ?_)
    refine traceExtends_bind (traceExtends_textsLoop env mins) (fun _ => ?_)
    exact traceExtends_bind ih (fun _ => traceExtends_pure _)

theorem traceExtends_busBody (env : DriverEnv) :
    TraceExtends (scrapeBusTimesBody env) := by
  unfold scrapeBusTimesBody
  refine traceExtends_bind (traceExtends_driverCall env) (fun _ => ?_)
  refine traceExtends_bind (traceExtends_driverCall env) (fun _ => ?_)
  refine traceExtends_bind (traceExtends_driverCallList env) (fun hours => ?_)
  refine traceExtends_bind (traceExtends_driverCallList env) (fun wrappers => ?_)
  refine traceExtends_bind (traceExtends_textsLoop env hours) (fun _ => ?_)
  exact traceExtends_bind (traceExtends_minutesLoop env wrappers)
    (fun _ => traceExtends_pure _)

theorem closeCount_onlyCalls {ex : List DEvent} (ho : OnlyCalls ex) : closeCount ex = 0 := by
  refine List.countP_eq_zero.mpr ?_
  intro e he
  obtain ⟨i, b, rfl⟩ := ho e he
  simp

theorem openCount_onlyCalls {ex : List DEvent} (ho : OnlyCalls ex) : openCount ex = 0 := by
  refine List.countP_eq_zero.mpr ?_
  intro e he
  obtain ⟨i, b, rfl⟩ := ho e he
  simp

theorem combineSpec_nil_right : ∀ H : List String, combineSpec H [] = []
  | [] => rfl
  | _ :: _ => rfl

theorem combine_foldl_aux (M : List (List String)) :
    ∀ (H : List String) (i0 : Nat) (acc : List String),
      (List.enumFrom i0 H).foldl (combineStep M) acc = acc ++ combineSpec H (M.drop i0) := by
  intro H
  induction H with
  | nil => intro i0 acc; simp [combineSpec]
  | cons h hs ih =>
    intro i0 acc
    rw [List.enumFrom_cons, List.foldl_cons, ih (i0 + 1)]
    cases hM : M[i0]? with
    | none =>
      have hlen : M.length ≤ i0 := List.getElem?_eq_none_iff.mp hM
      have hd0 : M.drop i0 = [] := List.drop_eq_nil_of_le hlen
      have hd1 : M.drop (i0 + 1) = [] :=
        List.drop_eq_nil_of_le (le_trans hlen (Nat.le_succ i0))
      simp [combineStep, hM, hd0, hd1, combineSpec, combineSpec_nil_right]
    | some ms =>
      have hlt : i0 < M.length := by
        by_contra hge
        rw [List.getElem?_eq_none_iff.mpr (Nat.le_of_not_lt hge)] at hM
        exact Option.noConfusion hM
      have hget : M[i0] = ms := by
        have := List.getElem?_eq_getElem hlt
        rw [hM] at this
        exact (Option.some.injEq _ _).mp this.symm
      have hdrop : M.drop i0 = ms :: M.drop (i0 + 1) := by
        rw [List.drop_eq_getElem_cons hlt, hget]
      simp [combineStep, hM, hdrop, combineSpec, List.append_assoc]

theorem tripleMatches_setCache (rn dir ss : String) (r : Route) (times : List String)
    (now : Int) : tripleMatches rn dir ss (setCache r times now) = tripleMatches rn dir ss r :=
  rfl

theorem find_updateCacheFirst {rn dir ss : String} {times : List String} {now : Int} :
    ∀ {routes : List Route} {route : Route},
      routes.find? (tripleMatches rn dir ss) = some route →
      (updateCacheFirst rn dir ss times now routes).find? (tripleMatches rn dir ss)
        = some (setCache route times now) := by
  intro routes
  induction routes with
  | nil => intro route h; exact Option.noConfusion h
  | cons r rest ih =>
    intro route h
    rw [List.find?_cons] at h
    unfold updateCacheFirst
    by_cases hm : tripleMatches rn dir ss r
    · rw [hm] at h
      have hr : r = route := (Option.some.injEq _ _).mp h
      subst hr
      rw [if_pos hm, List.find?_cons, tripleMatches_setCache, hm]
    · rw [Bool.not_eq_true] at hm
      rw [hm] at h
      rw [if_neg (by simp [hm]), List.find?_cons, hm]
      exact ih h

theorem clearCache_id (r : Route) : (clearCache r).id = r.id := rfl

theorem find_clearFirst {idv : String} :
    ∀ {routes : List Route} {r : Route},
      routes.find? (fun x => x.id == idv) = some r →
      (clearFirst idv routes).find? (fun x => x.id == idv) = some (clearCache r) := by
  intro routes
  induction routes with
  | nil => intro r h; exact Option.noConfusion h
  | cons x rest ih =>
    intro r h
    rw [List.find?_cons] at h
    unfold clearFirst
    by_cases hm : x.id == idv
    · rw [hm] at h
      have hr : x = r := (Option.some.injEq _ _).mp h
      subst hr
      rw [if_pos hm, List.find?_cons]
      have hcc : (clearCache x).id == idv := by rw [clearCache_id]; exact hm
      rw [hcc]
    · rw [Bool.not_eq_true] at hm
      rw [hm] at h
      rw [if_neg (by simp [hm]), List.find?_cons, hm]
      exact ih h

theorem mem_clearFirst_of_ne {idv : String} {x : Route} :
    ∀ {routes : List Route}, x ∈ routes → x.id ≠ idv → x ∈ clearFirst idv routes := by
  intro routes
  induction routes with
  | nil => intro hx; exact absurd hx (List.not_mem_nil x)
  | cons r rest ih =>
    intro hx hne
    unfold clearFirst
    by_cases hm : r.id == idv
    · rw [if_pos hm]
      rcases List.mem_cons.mp hx with hxr | hxrest
      · exact absurd (hxr ▸ (beq_iff_eq.mp hm)) hne
      · exact List.mem_cons_of_mem _ hxrest
    · rw [if_neg hm]
      rcases List.mem_cons.mp hx with hxr | hxrest
      · exact hxr ▸ List.mem_cons_self r _
      · exact List.mem_cons_of_mem _ (ih hxrest hne)

theorem map_id_clearFirst (idv : String) :
    ∀ routes : List Route, (clearFirst idv routes).map Route.id = routes.map Route.id := by
  intro routes
  induction routes with
  | nil => rfl
  | cons r rest ih =>
    unfold clearFirst
    by_cases hm : r.id == idv
    · rw [if_pos hm]
      simp [clearCache_id]
    · rw [if_neg hm]
      simp [ih]

theorem map_id_updateCacheFirst (rn dir ss : String) (times : List String) (now : Int) :
    ∀ routes : List Route,
      (updateCacheFirst rn dir ss times now routes).map Route.id = routes.map Route.id := by
  intro routes
  induction routes with
  | nil => rfl
  | cons r rest ih =>
    unfold updateCacheFirst
    by_cases hm : tripleMatches rn dir ss r
    · rw [if_pos hm]
      simp [setCache]
    · rw [if_neg hm]
      simp [ih]

/- ---------------------------------------------------------------
   Claim theorems
   --------------------------------------------------------------- -/

/-- Claim C1: in every execution of the scrape operations, whether the
browser steps all succeed or any of them throws, the session close
(`driver.quit`) happens exactly once and it is the last driver event
before the result or error is surfaced; in every execution, including a
failed session build, the number of session closes equals the number of
sessions opened, so no path leaks an open session. -/
theorem scrape_sessions_closed (env : DriverEnv) :
    closeCount (scrapeLineMetadata env).2 = openCount (scrapeLineMetadata env).2 ∧
    closeCount (scrapeBusTimes env).2 = openCount (scrapeBusTimes env).2 ∧
    (env.buildOk = true →
      closeCount (scrapeLineMetadata env).2 = 1 ∧
      (scrapeLineMetadata env).2.getLast? = some DEvent.sessionClose ∧
      closeCount (scrapeBusTimes env).2 = 1 ∧
      (scrapeBusTimes env).2.getLast? = some DEvent.sessionClose) := by
  obtain ⟨ex1, h1, ho1⟩ := traceExtends_lineBody env ⟨0, [DEvent.sessionOpen]⟩
  obtain ⟨ex2, h2, ho2⟩ := traceExtends_busBody env ⟨0, [DEvent.sessionOpen]⟩
  by_cases hb : env.buildOk = true
  · have hm : (scrapeLineMetadata env).2
        = ([DEvent.sessionOpen] ++ ex1) ++ [DEvent.sessionClose] := by
      simp only [scrapeLineMetadata, hb, if_true]
      rw [h1]
    have hbus : (scrapeBusTimes env).2
        = ([DEvent.sessionOpen] ++ ex2) ++ [DEvent.sessionClose] := by
      simp only [scrapeBusTimes, hb, if_true]
      rw [h2]
    have hcm : closeCount (scrapeLineMetadata env).2 = 1 := by
      rw [hm]
      unfold closeCount
      rw [List.countP_append, List.countP_append]
      have hz := closeCount_onlyCalls ho1
      unfold closeCount at hz
      rw [hz]
      decide
    have hcb : closeCount (scrapeBusTimes env).2 = 1 := by
      rw [hbus]
      unfold closeCount
      rw [List.countP_append, List.countP_append]
      have hz := closeCount_onlyCalls ho2
      unfold closeCount at hz
      rw [hz]
      decide
    have hom : openCount (scrapeLineMetadata env).2 = 1 := by
      rw [hm]
      unfold openCount
      rw [List.countP_append, List.countP_append]
      have hz := openCount_onlyCalls ho1
      unfold openCount at hz
      rw [hz]
      decide
    have hob : openCount (scrapeBusTimes env).2 = 1 := by
      rw [hbus]
      unfold openCount
      rw [List.countP_append, List.countP_append]
      have hz := openCount_onlyCalls ho2
      unfold openCount at hz
      rw [hz]
      decide
    refine ⟨by rw [hcm, hom], by rw [hcb, hob], fun _ => ⟨hcm, ?_, hcb, ?_⟩⟩
    · rw [hm]
      exact List.getLast?_concat _
    · rw [hbus]
      exact List.getLast?_concat _
  · have hb0 : env.buildOk = false := Bool.not_eq_true env.buildOk |>.mp hb
    refine ⟨?_, ?_, fun h => absurd h hb⟩
    · simp [scrapeLineMetadata, hb0, closeCount, openCount]
    · simp [scrapeBusTimes, hb0, closeCount, openCount]

/-- Witness for C1: concrete environments where every step succeeds and
where the third driver call fails; both close the session exactly once,
as the last event. -/
theorem scrape_sessions_closed_witness :
    envAllOk.buildOk = true ∧ envFailAt2.buildOk = true ∧
    closeCount (scrapeLineMetadata envAllOk).2 = 1 ∧
    (scrapeLineMetadata envAllOk).2.getLast? = some DEvent.sessionClose ∧
    closeCount (scrapeBusTimes envFailAt2).2 = 1 ∧
    (scrapeBusTimes envFailAt2).2.getLast? = some DEvent.sessionClose :=
  ⟨rfl, rfl,
    (scrape_sessions_closed envAllOk).2.2 rfl |>.1,
    (scrape_sessions_closed envAllOk).2.2 rfl |>.2.1,
    (scrape_sessions_closed envFailAt2).2.2 rfl |>.2.2.1,
    (scrape_sessions_closed envFailAt2).2.2 rfl |>.2.2.2⟩

/-- Counterexample to claim C2 as stated: a stored route with cached
times, a cache timestamp (the number 0) and an age below the time-to-live
is Fresh by the claim's definition, yet the display path invokes the
driver once instead of serving the cache, because the JS truthiness test
on `route.cacheTimestamp` treats the number 0 as absent. -/
theorem fetchTimetable_zero_timestamp_counterexample :
    zeroTsRoute.cachedBusTimes.isSome = true ∧
    zeroTsRoute.cacheTimestamp = some 0 ∧
    ((100 : Int) - 0 < CACHE_DURATION) ∧
    [zeroTsRoute].find? (tripleMatches "23b" "dus" "4") = some zeroTsRoute ∧
    (fetchTimetable [zeroTsRoute] "23b" "dus" "4" 100 (Except.ok ["9:00"])).1 = 1 :=
  ⟨rfl, rfl, by decide, rfl, rfl⟩

/-- Claim C2 (amended): the display path invokes the driver if and only
if the route's cache fails the code's freshness test, which holds exactly
when cached times are present, the stored timestamp is present and
nonzero, and its age is below the 5-minute time-to-live (the nonzero
condition is the amendment).  When fresh it serves the stored times with
age now minus timestamp and performs no driver call and no save; when
stale and the scrape succeeds it performs exactly one driver call and
persists a registry in which the looked-up route stores the scraped times
with timestamp now. -/
theorem fetchTimetable_cache_policy (routes : List Route) (rn dir ss : String) (now : Int)
    (scr : Except String (List String)) (route : Route)
    (hfind : routes.find? (tripleMatches rn dir ss) = some route) :
    ((fetchTimetable routes rn dir ss now scr).1 = if cacheCheck route now then 0 else 1) ∧
    (cacheCheck route now = true ↔
      (route.cachedBusTimes.isSome = true ∧
        ∃ t, route.cacheTimestamp = some t ∧ t ≠ 0 ∧ now - t < CACHE_DURATION)) ∧
    (cacheCheck route now = true →
      fetchTimetable routes rn dir ss now scr =
        (0, FetchOutcome.cached (route.cachedBusTimes.getD [])
              (now - route.cacheTimestamp.getD 0) routes)) ∧
    (∀ times, cacheCheck route now = false → scr = Except.ok times →
      fetchTimetable routes rn dir ss now scr =
        (1, FetchOutcome.live times (updateCacheFirst rn dir ss times now routes)) ∧
      (updateCacheFirst rn dir ss times now routes).find? (tripleMatches rn dir ss)
        = some (setCache route times now) ∧
      (setCache route times now).cachedBusTimes = some times ∧
      (setCache route times now).cacheTimestamp = some now) := by
  refine ⟨?_, ?_, ?_, ?_⟩
  · by_cases hcc : cacheCheck route now
    · simp [fetchTimetable, hfind, hcc]
    · rw [Bool.not_eq_true] at hcc
      cases scr with
      | ok times => simp [fetchTimetable, hfind, hcc]
      | error e => simp [fetchTimetable, hfind, hcc]
  · cases hts : route.cacheTimestamp with
    | none => simp [cacheCheck, tsTruthy, hts]
    | some t => simp [cacheCheck, tsTruthy, hts, and_assoc]
  · intro hcc
    simp [fetchTimetable, hfind, hcc]
  · intro times hcc hscr
    subst hscr
    refine ⟨by simp [fetchTimetable, hfind, hcc], find_updateCacheFirst hfind, rfl, rfl⟩

/-- Witness for C2's amended theorem: a concrete route with no snapshot
is looked up, scraped once, and the registry stores the new snapshot. -/
theorem fetchTimetable_cache_policy_witness :
    ([bareRoute].find? (tripleMatches "5" "dus" "gara") = some bareRoute) ∧
    ((fetchTimetable [bareRoute] "5" "dus" "gara" 50 (Except.ok ["9:00"])).1
      = if cacheCheck bareRoute 50 then 0 else 1) ∧
    (updateCacheFirst "5" "dus" "gara" ["9:00"] 50 [bareRoute]).find?
        (tripleMatches "5" "dus" "gara") = some (setCache bareRoute ["9:00"] 50) :=
  ⟨rfl,
    (fetchTimetable_cache_policy [bareRoute] "5" "dus" "gara" 50
      (Except.ok ["9:00"]) bareRoute rfl).1,
    ((fetchTimetable_cache_policy [bareRoute] "5" "dus" "gara" 50
      (Except.ok ["9:00"]) bareRoute rfl).2.2.2 ["9:00"] rfl rfl).2.1⟩

/-- Claim C3: the timetable combination equals the spec's hour-major,
minute-minor trimmed sequence, hours beyond the minute-wrapper list
contribute nothing without error, the spec's concrete example holds, and
an empty result is an ordinary value. -/
theorem timetable_combine_correct :
    (∀ H M, combineBusTimes H M = combineSpec H M) ∧
    combineBusTimes ["7", "8"] [["05", "20"], ["10"]] = ["7:05", "7:20", "8:10"] ∧
    combineBusTimes ["7", "8"] [["05", "20"]] = ["7:05", "7:20"] ∧
    combineBusTimes [" 7 ", "8"] [[" 05", "20 "]] = ["7:05", "7:20"] ∧
    combineBusTimes ["7", "8"] [] = [] := by
  refine ⟨?_, by decide, by decide, by decide, by decide⟩
  intro H M
  have h := combine_foldl_aux M H 0 []
  rw [List.drop_zero, List.nil_append] at h
  exact h

/-- Claim C4: invalidation on an id held by a stored route answers
success and persists a registry in which that route's cached times and
timestamp are both absent, unconditionally (no hypothesis on the
snapshot's age), while every route with a different id is kept; on an id
held by no route it answers RouteNotFound and persists nothing (the
registry component is the unchanged input). -/
theorem invalidate_cache_correct (routes : List Route) (idv : String) :
    (∀ r, routes.find? (fun x => x.id == idv) = some r →
      invalidateCacheOp routes idv = (Except.ok (), clearFirst idv routes) ∧
      (clearFirst idv routes).find? (fun x => x.id == idv) = some (clearCache r) ∧
      (clearCache r).cachedBusTimes = none ∧
      (clearCache r).cacheTimestamp = none ∧
      (∀ x ∈ routes, x.id ≠ idv → x ∈ clearFirst idv routes)) ∧
    (routes.find? (fun x => x.id == idv) = none →
      invalidateCacheOp routes idv = (Except.error (), routes)) := by
  constructor
  · intro r hr
    refine ⟨?_, find_clearFirst hr, rfl, rfl, fun x hx hne => mem_clearFirst_of_ne hx hne⟩
    simp [invalidateCacheOp, hr]
  · intro hn
    simp [invalidateCacheOp, hn]

/-- Witness for C4: invalidating a route whose snapshot is still fresh
(timestamp 1000) clears it anyway; a missing id answers RouteNotFound. -/
theorem invalidate_cache_correct_witness :
    ([freshRoute].find? (fun x => x.id == "23b-4-dus") = some freshRoute) ∧
    (invalidateCacheOp [freshRoute] "23b-4-dus"
      = (Except.ok (), clearFirst "23b-4-dus" [freshRoute])) ∧
    ([freshRoute].find? (fun x => x.id == "missing") = none) ∧
    (invalidateCacheOp [freshRoute] "missing" = (Except.error (), [freshRoute])) :=
  ⟨rfl,
    ((invalidate_cache_correct [freshRoute] "23b-4-dus").1 freshRoute rfl).1,
    rfl,
    (invalidate_cache_correct [freshRoute] "missing").2 rfl⟩

/-- Claim C5: creating a route whose id some stored route already has
fails with the duplicate-id error and persists the unchanged registry;
otherwise the new route is appended and the extended registry is
persisted. -/
theorem create_route_duplicate_check (routes : List Route) (newRoute : Route) :
    ((∃ r ∈ routes, r.id = newRoute.id) →
      postRoute routes newRoute = (Except.error "ID already exists", routes)) ∧
    ((∀ r ∈ routes, r.id ≠ newRoute.id) →
      postRoute routes newRoute = (Except.ok (), routes ++ [newRoute])) := by
  constructor
  · rintro ⟨r, hr, hid⟩
    have hany : routes.any (fun r => r.id == newRoute.id) = true :=
      List.any_eq_true.mpr ⟨r, hr, by simp [hid]⟩
    simp [postRoute, hany]
  · intro h
    have hany : routes.any (fun r => r.id == newRoute.id) = false := by
      rw [Bool.eq_false_iff]
      intro hcontra
      obtain ⟨r, hr, hid⟩ := List.any_eq_true.mp hcontra
      exact h r hr (by simpa using hid)
    simp [postRoute, hany]

/-- Witness for C5: a route with a fresh id is appended; re-posting a
route with an id already stored is rejected with the registry unchanged. -/
theorem create_route_duplicate_check_witness :
    (postRoute [dupTripleA] dupTripleB = (Except.ok (), [dupTripleA] ++ [dupTripleB])) ∧
    (postRoute [dupTripleA] dupTripleA = (Except.error "ID already exists", [dupTripleA])) :=
  ⟨(create_route_duplicate_check [dupTripleA] dupTripleB).2 (by decide),
    (create_route_duplicate_check [dupTripleA] dupTripleA).1
      ⟨dupTripleA, List.mem_cons_self _ _, rfl⟩⟩

/-- Claim C9: `loadRoutes` is total; a failed read (missing or unreadable
file) and a failed parse (text that is not parseable JSON) both yield the
empty route list instead of an error. -/
theorem load_routes_total (parse : String → Option (List Route)) :
    loadRoutes none parse = [] ∧
    (∀ s, parse s = none → loadRoutes (some s) parse = []) := by
  refine ⟨rfl, ?_⟩
  intro s hs
  simp [loadRoutes, hs]

/-- Witness for C9 at a parser rejecting everything. -/
theorem load_routes_total_witness :
    loadRoutes none (fun _ => none) = [] ∧
    loadRoutes (some "this is not JSON") (fun _ => none) = [] :=
  ⟨(load_routes_total (fun _ => none)).1,
    (load_routes_total (fun _ => none)).2 "this is not JSON" rfl⟩

/-- Claim C10: the delete operation always answers success (never
RouteNotFound), the persisted registry holds exactly the stored routes
whose id differs from the given one, deleting an id held by no route
persists the collection unchanged, and deletion is idempotent. -/
theorem delete_route_idempotent (routes : List Route) (idv : String) :
    (deleteRoutes routes idv).1 = true ∧
    (∀ r, r ∈ (deleteRoutes routes idv).2 ↔ (r ∈ routes ∧ r.id ≠ idv)) ∧
    ((∀ r ∈ routes, r.id ≠ idv) → (deleteRoutes routes idv).2 = routes) ∧
    deleteRoutes (deleteRoutes routes idv).2 idv = deleteRoutes routes idv := by
  refine ⟨rfl, ?_, ?_, ?_⟩
  · intro r
    simp [deleteRoutes, List.mem_filter]
  · intro h
    have : routes.filter (fun r => r.id != idv) = routes :=
      List.filter_eq_self.mpr (fun r hr => by simpa using h r hr)
    simp [deleteRoutes, this]
  · simp [deleteRoutes, List.filter_filter]

/-- Witness for C10: deleting an id that no stored route has keeps both
stored routes and still answers success. -/
theorem delete_route_idempotent_witness :
    (deleteRoutes [freshRoute, bareRoute] "missing").1 = true ∧
    (deleteRoutes [freshRoute, bareRoute] "missing").2 = [freshRoute, bareRoute] :=
  ⟨(delete_route_idempotent [freshRoute, bareRoute] "missing").1,
    (delete_route_idempotent [freshRoute, bareRoute] "missing").2.2.1 (by decide)⟩

/-- Claim C6: composing the route id takes the master-URL segment between
the literal prefix and the hyphenated direction suffix as the line token,
the token between the second pair of underscores of the station link's
filename as the station slug, falls back to the human-readable slug when
the station-link pattern does not match, and joins line, slug and
direction with hyphens. -/
theorem route_identity_resolver :
    extractRouteNumber "https://www.ratbv.ro/afisaje/23b-dus.html" = "23b" ∧
    extractStationSlug "https://www.ratbv.ro/afisaje/23b-dus/line_23b_4_cl1_ro.html"
      "sala-sporturilor" = "4" ∧
    matchLineSlugAux ("https://www.ratbv.ro/statii/nopattern.html").data = none ∧
    extractStationSlug "https://www.ratbv.ro/statii/nopattern.html" "sala-sporturilor"
      = "sala-sporturilor" ∧
    composeRouteId "https://www.ratbv.ro/afisaje/23b-dus.html"
      "https://www.ratbv.ro/afisaje/23b-dus/line_23b_4_cl1_ro.html" "sala-sporturilor" "dus"
      = "23b-4-dus" ∧
    composeRouteId "https://www.ratbv.ro/afisaje/22-intors.html"
      "https://www.ratbv.ro/statii/nopattern.html" "sala-sporturilor" "intors"
      = "22-sala-sporturilor-intors" := by
  refine ⟨by decide, by decide, by decide, by decide, by decide, by decide⟩

/-- Claim C7: the derived station slug lowercases the name, strips
periods, and turns each maximal whitespace run into one hyphen; in
particular the three names from the spec's test yield the expected
slugs. -/
theorem station_slug_derivation :
    slugify "Sala Sporturilor" = "sala-sporturilor" ∧
    slugify "Stadion" = "stadion" ∧
    slugify "Gara" = "gara" ∧
    slugify "Str. Lunga" = "str-lunga" ∧
    slugify "Poarta  Schei" = "poarta-schei" := by
  refine ⟨by decide, by decide, by decide, by decide, by decide⟩

/-- Counterexample to claim C8 as stated: from the empty registry, two
creations with distinct ids but identical (routeNumber, direction,
stationSlug) triples both succeed, so a reachable registry holds two
distinct routes sharing the triple, which therefore does not uniquely
identify a route; the display path's triple lookup then finds only the
first of the two. -/
theorem triple_key_not_unique_counterexample :
    Reachable [dupTripleA, dupTripleB] ∧
    dupTripleA ≠ dupTripleB ∧
    dupTripleA.routeNumber = dupTripleB.routeNumber ∧
    dupTripleA.direction = dupTripleB.direction ∧
    dupTripleA.stationSlug = dupTripleB.stationSlug ∧
    [dupTripleA, dupTripleB].find? (tripleMatches "23b" "dus" "4") = some dupTripleA := by
  refine ⟨?_, by decide, rfl, rfl, rfl, rfl⟩
  have h1 : Reachable (postRoute [] dupTripleA).2 :=
    Reachable.create dupTripleA Reachable.empty
  have h2 : Reachable (postRoute (postRoute [] dupTripleA).2 dupTripleB).2 :=
    Reachable.create dupTripleB h1
  have he : (postRoute (postRoute [] dupTripleA).2 dupTripleB).2
      = [dupTripleA, dupTripleB] := by decide
  rw [he] at h2
  exact h2

/-- Claim C8 (amended): in every registry state reachable from the empty
registry through creation, deletion, cache invalidation and the display
path's cache write, the id field is unique across the stored routes; the
(routeNumber, direction, stationSlug) triple is the display path's lookup
key but is not guaranteed unique. -/
theorem registry_id_unique {rs : List Route} (h : Reachable rs) :
    (rs.map Route.id).Nodup := by
  induction h with
  | empty => simp
  | create r hr ih =>
    rename_i rs0
    by_cases hdup : rs0.any (fun x => x.id == r.id) = true
    · simpa [postRoute, hdup] using ih
    · have hnotin : r.id ∉ rs0.map Route.id := by
        intro hmem
        obtain ⟨x, hx, hxid⟩ := List.mem_map.mp hmem
        exact hdup (List.any_eq_true.mpr ⟨x, hx, by simp [hxid]⟩)
      have hb : rs0.any (fun x => x.id == r.id) = false := Bool.eq_false_iff.mpr hdup
      simp only [postRoute, hb, Bool.false_eq_true, if_false, List.map_append, List.map_cons,
        List.map_nil]
      rw [List.nodup_append]
      exact ⟨ih, List.nodup_singleton _, by
        intro a ha hb2
        rcases List.mem_singleton.mp hb2 with rfl
        exact hnotin ha⟩
  | delete idv hr ih =>
    rename_i rs0
    have hsub : ((deleteRoutes rs0 idv).2.map Route.id).Sublist (rs0.map Route.id) :=
      (List.filter_sublist rs0).map Route.id
    exact ih.sublist hsub
  | invalidate idv hr ih =>
    rename_i rs0
    cases hf : rs0.find? (fun r => r.id == idv) with
    | none => simpa [invalidateCacheOp, hf] using ih
    | some r =>
      have : (invalidateCacheOp rs0 idv).2 = clearFirst idv rs0 := by
        simp [invalidateCacheOp, hf]
      rw [this, map_id_clearFirst]
      exact ih
  | display rn dir ss now scr hr ih =>
    rename_i rs0
    cases hf : rs0.find? (tripleMatches rn dir ss) with
    | none => simpa [fetchSaved, fetchTimetable, hf] using ih
    | some route =>
      by_cases hcc : cacheCheck route now
      · simpa [fetchSaved, fetchTimetable, hf, hcc] using ih
      · rw [Bool.not_eq_true] at hcc
        cases scr with
        | ok times =>
          have : fetchSaved rs0 (fetchTimetable rs0 rn dir ss now (Except.ok times))
              = updateCacheFirst rn dir ss times now rs0 := by
            simp [fetchSaved, fetchTimetable, hf, hcc]
          rw [this, map_id_updateCacheFirst]
          exact ih
        | error e => simpa [fetchSaved, fetchTimetable, hf, hcc] using ih

/-- Witness for C8's amended theorem: the reachable registry obtained by
one successful creation has pairwise-distinct ids. -/
theorem registry_id_unique_witness :
    (((postRoute [] dupTripleA).2).map Route.id).Nodup :=
  registry_id_unique (Reachable.create dupTripleA Reachable.empty)

end BusScraper
